import Mathlib

set_option maxRecDepth 100000

/-!
Shallow embedding of the resume generation engine of
`src/finalproject.py` (AI-Powered Resume Builder for Blue-Collar
Professionals), covering:

* `build_fallback_resume_text` (lines 167-198): deterministic fallback
  synthesis of resume body text;
* `generate_resume_text` (lines 138-153): remote-call-or-fallback wrapper,
  modelled with an explicit environment (library availability, credential)
  and an oracle for the remote call outcome, producing an event trace;
* `create_pdf_bytes` (lines 202-250): document rendering, modelled as a
  sequential cursor/font/color state machine over the fpdf operations the
  source performs, with the external tempfile/PIL/fpdf photo pipeline
  abstracted by an oracle naming which step (if any) raises.

Python strings are Lean `String`; Python string truthiness is `s ≠ ""`,
list truthiness `l ≠ []`, dict-or-None truthiness `Option.isSome`.  The
Python string methods the source uses (`strip`, `lower`, `upper`,
`split`, `splitlines`) are embedded as structurally recursive functions
over `List Char` so that every definition evaluates inside the kernel.
-/

/-- Python `str.lower` (ASCII case mapping, which covers every string the
source feeds it). -/
def pyLower (s : String) : String := ⟨s.data.map Char.toLower⟩

/-- Python `str.upper` (ASCII case mapping). -/
def pyUpper (s : String) : String := ⟨s.data.map Char.toUpper⟩

/-- Python `str.strip` with no argument: remove leading and trailing
whitespace. -/
def pyStrip (s : String) : String :=
  ⟨((s.data.dropWhile Char.isWhitespace).reverse.dropWhile Char.isWhitespace).reverse⟩

/-- Split a character list at every occurrence of `sep`, keeping empty
segments, as Python `str.split(sep)` does: `""` yields `[""]`. -/
def splitChar (sep : Char) : List Char → List (List Char)
  | [] => [[]]
  | c :: cs =>
    let r := splitChar sep cs
    if c = sep then [] :: r
    else
      match r with
      | [] => [[c]]
      | h :: t => (c :: h) :: t

/-- Python `s.split(sep)` for a one-character separator. -/
def pySplit (sep : Char) (s : String) : List String :=
  (splitChar sep s.data).map (fun l => ⟨l⟩)

/-- Normalise the line-break forms Python `str.splitlines` recognises in
the source inputs (`\r\n`, `\r`, `\n`) to `\n`. -/
def normNewlines : List Char → List Char
  | [] => []
  | '\r' :: '\n' :: rest => '\n' :: normNewlines rest
  | '\r' :: rest => '\n' :: normNewlines rest
  | c :: rest => c :: normNewlines rest

/-- Candidate data dictionary as assembled at lines 313-326 of the source:
every field the fallback synthesis and renderer read, with the types the
caller supplies (strings trimmed upstream, lists already split). -/
structure ProfileData where
  name : String := ""
  city : String := ""
  phone : String := ""
  email : String := ""
  trade : String := ""
  years_experience : String := ""
  education : String := ""
  skills_text : String := ""
  skills_list : List String := []
  certifications : List String := []
  experience_text : String := ""
  special_notes : String := ""
deriving Repr, DecidableEq

/-- Python `[l.strip() for l in s.splitlines() if l.strip()]` (line 176):
split on line breaks, strip each line, drop lines that are empty after
stripping.  The trailing-empty-segment difference between `splitlines`
and separator-splitting disappears under the non-empty filter. -/
def strippedLines (s : String) : List String :=
  (((splitChar '\n' (normNewlines s.data)).map (fun l => pyStrip ⟨l⟩))).filter
    (fun l => l ≠ "")

/-- Python `[x.strip() for x in t.split(',') if x.strip()]` (line 184):
comma-split of the free-text skills field, stripped, empties dropped. -/
def commaSkills (t : String) : List String :=
  ((pySplit ',' t).map pyStrip).filter (fun x => x ≠ "")

/-- Summary paragraph of the fallback synthesis, lines 171-174 of the
source: opening sentence with the trade (lower-cased in its second
occurrence) and the years bucket, the special notes appended verbatim with
a trailing space when non-empty (Python truthiness), then the fixed
closing clause. -/
def fallbackSummary (data : ProfileData) : String :=
  let s := "Reliable " ++ data.trade ++ " with " ++ data.years_experience ++
    " years of experience in " ++ pyLower data.trade ++ " work. "
  let s := if data.special_notes ≠ "" then s ++ data.special_notes ++ " " else s
  s ++ "Known for strong work ethic, safety-first approach, and consistent on-time completion of projects."

/-- Experience bullet list, lines 176-182: the non-empty stripped lines of
the free-text experience field, or three fixed generic bullets referencing
the trade when there are none. -/
def fallbackExpLines (data : ProfileData) : List String :=
  let exp_lines := strippedLines data.experience_text
  if exp_lines = [] then
    ["Performed " ++ pyLower data.trade ++ " tasks including installation, maintenance, and repairs.",
     "Followed safety protocols and maintained jobsite cleanliness.",
     "Collaborated with teams to complete projects on schedule."]
  else exp_lines

/-- Python `data.get("skills_list") or [...split of skills_text...]`
(line 184): the explicit skills list when non-empty, otherwise the
comma-split of the free-text field. -/
def resolvedSkills (data : ProfileData) : List String :=
  if data.skills_list ≠ [] then data.skills_list else commaSkills data.skills_text

/-- Skills bullet list, lines 184-186: the resolved skills list, or three
fixed generic skill bullets referencing the trade when it is empty. -/
def fallbackSkills (data : ProfileData) : List String :=
  let skills := resolvedSkills data
  if skills = [] then
    [data.trade ++ " installation", "Equipment maintenance", "Safety compliance"]
  else skills

/-- Certifications line, lines 188-189: comma-join of the certifications
list, or the literal sentinel when the list is empty. -/
def fallbackCertsText (data : ProfileData) : String :=
  if data.certifications = [] then "N/A" else String.intercalate ", " data.certifications

/-- Lines 167-198 of the source (`build_fallback_resume_text`): assemble
the summary, experience, skills, certifications and optional education
sections (line 168 also binds a local `name` that is never used).
Sections are collected in a `parts` list, the education part appended only
when the education field is non-empty (Python truthiness, line 196), and
the parts joined with a newline. -/
def build_fallback_resume_text (data : ProfileData) : String :=
  let summary := fallbackSummary data
  let exp_lines := fallbackExpLines data
  let skills := fallbackSkills data
  let certs_text := fallbackCertsText data
  let parts : List String :=
    ["PROFESSIONAL SUMMARY\n" ++ summary ++ "\n",
     "EXPERIENCE\n" ++ String.intercalate "\n" (exp_lines.map (fun e => "- " ++ e)),
     "\nSKILLS\n" ++ String.intercalate "\n" (skills.map (fun s => "- " ++ s)),
     "\nCERTIFICATIONS\n" ++ certs_text]
  let parts := if data.education ≠ "" then parts ++ ["\nEDUCATION\n" ++ data.education] else parts
  String.intercalate "\n" parts

/-- The Jane Doe scenario profile of the spec (section 8). -/
def janeDoe : ProfileData :=
  { name := "Jane Doe", trade := "Welder", years_experience := "5-10" }

/-- Outcome of the one outbound generative call, as an oracle: `success`
carries the completion string the service returned, `failure` the message
of the exception the `except` clause at line 151 would catch (network or
service error, or the key/index error raised while reading a malformed
response, all inside the `try`). -/
inductive RemoteOutcome where
  | success (content : String)
  | failure (err : String)
deriving Repr, DecidableEq

/-- Process environment of `generate_resume_text`: whether `import openai`
succeeded (lines 132-136) and the value of `os.getenv("OPENAI_API_KEY")`
(line 139, `none` when unset). -/
structure GenEnv where
  openai_available : Bool
  api_key : Option String
deriving Repr, DecidableEq

/-- Python truthiness of the credential: set and non-empty. -/
def apiKeyTruthy : Option String → Bool
  | none => false
  | some k => k ≠ ""

/-- Observable side effects of `generate_resume_text`: the outbound
service call (line 144) and the non-blocking `st.warning` (line 152). -/
inductive GenEvent where
  | remoteCall
  | warning (msg : String)
deriving Repr, DecidableEq

/-- Lines 138-153 of the source (`generate_resume_text`): when the client
library is available and the credential is truthy, perform the remote call
and return the stripped completion on success; on any exception show a
warning and fall through; in every non-success case return the
deterministic fallback text.  The result is the returned string paired
with the event trace. -/
def generate_resume_text (env : GenEnv) (remote : RemoteOutcome) (data : ProfileData) :
    String × List GenEvent :=
  if env.openai_available && apiKeyTruthy env.api_key then
    match remote with
    | .success content => (pyStrip content, [.remoteCall])
    | .failure e =>
        (build_fallback_resume_text data,
         [.remoteCall, .warning ("OpenAI call failed: " ++ e ++ ". Using fallback template.")])
  else
    (build_fallback_resume_text data, [])

/-- A font selection as passed to `pdf.set_font`: family, style string,
size. -/
structure FontSpec where
  family : String
  style : String
  size : Nat
deriving Repr, DecidableEq

/-- Line 227: `heading_font = ("Helvetica", 'B', 20)`. -/
def heading_font : FontSpec := ⟨"Helvetica", "B", 20⟩

/-- Line 228: `body_font = ("Helvetica", '', 12)`. -/
def body_font : FontSpec := ⟨"Helvetica", "", 12⟩

/-- Line 229: the accent color for the one named template, neutral black
for every other template identifier. -/
def primary_color (template : String) : Nat × Nat × Nat :=
  if template = "Modern Blue" then (0, 102, 204) else (0, 0, 0)

/-- Drawing operations the source performs on the fpdf document: image
placement (`pdf.image`, line 219), a one-line cell (`pdf.cell` with
`ln=True`, lines 234 and 243) and the wrapped body block (`pdf.multi_cell`,
line 247).  Each text op records the cursor position it is drawn at and
the font and text color in force. -/
inductive PdfOp where
  | image (x y w h : Nat)
  | cell (x y w h : Nat) (font : FontSpec) (color : Nat × Nat × Nat) (text : String)
  | multiCell (x y h : Nat) (font : FontSpec) (color : Nat × Nat × Nat) (text : String)
deriving Repr, DecidableEq

/-- Whether an operation is the photo placement. -/
def PdfOp.isImage : PdfOp → Bool
  | .image _ _ _ _ => true
  | _ => false

/-- Default fpdf left margin (units rounded to whole numbers; only its
role as "the left margin" matters to the claims). -/
def lMargin : Nat := 10

/-- Default fpdf top margin. -/
def tMargin : Nat := 10

/-- Cursor, current font, current text color and emitted operations of the
fpdf document. -/
structure PdfState where
  x : Nat
  y : Nat
  font : FontSpec
  color : Nat × Nat × Nat
  ops : List PdfOp
deriving Repr, DecidableEq

/-- State after `FPDF(); pdf.add_page()` (lines 204-206): cursor at the
margins, black text, no operations. -/
def PdfState.init : PdfState :=
  ⟨lMargin, tMargin, ⟨"", "", 0⟩, (0, 0, 0), []⟩

/-- `pdf.set_xy(x, y)`. -/
def PdfState.setXY (s : PdfState) (x y : Nat) : PdfState := { s with x := x, y := y }

/-- `pdf.set_x(x)`. -/
def PdfState.setXTo (s : PdfState) (x : Nat) : PdfState := { s with x := x }

/-- `pdf.set_y(y)`: fpdf also returns the abscissa to the left margin. -/
def PdfState.setYTo (s : PdfState) (y : Nat) : PdfState := { s with x := lMargin, y := y }

/-- `pdf.set_font(family, style, size)`. -/
def PdfState.setFontTo (s : PdfState) (f : FontSpec) : PdfState := { s with font := f }

/-- `pdf.set_text_color(r, g, b)`. -/
def PdfState.setTextColor (s : PdfState) (c : Nat × Nat × Nat) : PdfState := { s with color := c }

/-- `pdf.cell(w, h, text, ln=True)`: draw a cell at the current position
with the current font and color, then move to the start of the next line
(abscissa back to the left margin, ordinate advanced by the cell
height). -/
def PdfState.cellLn (s : PdfState) (w h : Nat) (text : String) : PdfState :=
  { s with
    x := lMargin, y := s.y + h,
    ops := s.ops ++ [.cell s.x s.y w h s.font s.color text] }

/-- `pdf.multi_cell(w, h, text)`: draw the wrapped text block at the
current position with the current font and color.  It is the last
operation the source performs, so the post-state cursor is irrelevant. -/
def PdfState.multiCellAt (s : PdfState) (_w h : Nat) (text : String) : PdfState :=
  { s with ops := s.ops ++ [.multiCell s.x s.y h s.font s.color text] }

/-- `pdf.image(path, x, y, w, h)` at line 219: places the image without
moving the cursor. -/
def PdfState.imageAt (s : PdfState) (x y w h : Nat) : PdfState :=
  { s with ops := s.ops ++ [.image x y w h] }

/-- Contact dictionary built at line 335: the three keys are always
present; values may be empty strings. -/
structure ContactDict where
  city : String
  phone : String
  email : String
deriving Repr, DecidableEq

/-- Lines 239-241: join the truthy values among city, phone, email with
the fixed separator. -/
def contactLine (ci : ContactDict) : String :=
  String.intercalate " | " (([ci.city, ci.phone, ci.email]).filter (fun v => v ≠ ""))

/-- Oracle for the external photo pipeline of lines 211-224, naming the
first operation that raises, if any: creating the named temporary file,
writing/flushing the raw bytes to it, `Image.open(...).convert("RGB")`,
`img.save(..., "PNG")`, or `pdf.image(...)`.  `ok` means every step
succeeded. -/
inductive PhotoStage where
  | ok
  | failCreate
  | failWrite
  | failDecode
  | failSave
  | failPlace
deriving Repr, DecidableEq

/-- Observable outcome of the photo-embedding block: whether the image was
placed on the page, whether the temporary file came to exist on disk, and
whether the `finally` clause at lines 222-224 removed it.  The `finally`
clause removes the file only when the local `tmp_path` was bound, which
happens after the raw-byte write and flush succeed (line 216). -/
structure PhotoResult where
  imagePlaced : Bool
  fileCreated : Bool
  fileRemoved : Bool
deriving Repr, DecidableEq

/-- Lines 211-224 of the source: the try/except/finally around the photo
pipeline, evaluated against the oracle.  A failure at any stage is caught
by the `except` clause (line 220), so the image is placed only when every
stage succeeds; the temporary file exists from the moment
`NamedTemporaryFile` returns; the `finally` clause deletes it exactly when
`tmp_path` is bound, i.e. on every outcome except a failure of the
creation itself (no file, nothing bound) or of the raw-byte write (file on
disk, name not yet bound). -/
def embedPhoto : PhotoStage → PhotoResult
  | .failCreate => ⟨false, false, false⟩
  | .failWrite => ⟨false, true, false⟩
  | .failDecode => ⟨false, true, true⟩
  | .failSave => ⟨false, true, true⟩
  | .failPlace => ⟨false, true, true⟩
  | .ok => ⟨true, true, true⟩

/-- Result of rendering: the operation list of the finished page and the
photo-block outcome when photo bytes were supplied. -/
structure RenderedDoc where
  ops : List PdfOp
  photo : Option PhotoResult
deriving Repr, DecidableEq

/-- Lines 202-247 of the source (`create_pdf_bytes` before serialisation),
as a sequential pass over the fpdf state: optional photo block, heading
cell for the upper-cased name in the heading font and template color at
(60, 25), optional contact cell at x=60 in the body font and neutral color
when the contact dict is truthy, then the body block at the left margin
after a fixed 10-unit gap.  Note the source resets the text color to
neutral only inside the contact branch, so without a contact dict the body
inherits the template color. -/
def create_pdf (resume_text name : String) (contact_info : Option ContactDict)
    (template : String) (photo : Option PhotoStage) : RenderedDoc :=
  let s := PdfState.init
  let photoRes := photo.map embedPhoto
  let s := match photoRes with
    | some r => if r.imagePlaced then s.imageAt 15 20 35 35 else s
    | none => s
  let s := s.setXY 60 25
  let s := s.setTextColor (primary_color template)
  let s := s.setFontTo heading_font
  let s := s.cellLn 0 10 (pyUpper name)
  let s := match contact_info with
    | some ci =>
        let s := s.setFontTo body_font
        let s := s.setTextColor (0, 0, 0)
        let s := s.setXTo 60
        s.cellLn 0 8 (contactLine ci)
    | none => s
  let s := s.setYTo (s.y + 10)
  let s := s.setFontTo body_font
  let s := s.multiCellAt 0 7 resume_text
  ⟨s.ops, photoRes⟩

/-- Operations the photo block contributes to the page: the single image
placement when every pipeline stage succeeded, nothing otherwise (and
nothing when no photo bytes were supplied). -/
def imgOps : Option PhotoStage → List PdfOp
  | some stage => if (embedPhoto stage).imagePlaced then [PdfOp.image 15 20 35 35] else []
  | none => []

/-- Text content an operation contributes to the serialised page stream
(the image contributes none). -/
def opContent : PdfOp → String
  | .image _ _ _ _ => ""
  | .cell _ _ _ _ _ _ text => text ++ "\n"
  | .multiCell _ _ _ _ _ text => text ++ "\n"

/-- Concatenated text content of the page stream. -/
def docContent : List PdfOp → String
  | [] => ""
  | op :: rest => opContent op ++ docContent rest

/-- Line 250: `out.encode('latin-1', 'ignore')` — one byte per character
with code point at most 255, characters outside that range dropped. -/
def latin1Bytes (s : String) : List Nat :=
  s.data.filterMap (fun c => if c.toNat ≤ 255 then some c.toNat else none)

/-- Fixed bytes every document of the target format carries around its
content stream (modelling the fpdf serialiser, which is external to the
repository). -/
def pdfShell : String := "%PDF-1.3\n"

/-- Lines 202-250 of the source (`create_pdf_bytes`): the rendered
operations serialised to bytes, the external serialiser modelled as the
fixed shell around the page text content, encoded single-byte-safe with
unrepresentable characters dropped. -/
def create_pdf_bytes (resume_text name : String) (contact_info : Option ContactDict)
    (template : String) (photo : Option PhotoStage) : List Nat :=
  latin1Bytes (pdfShell ++ docContent (create_pdf resume_text name contact_info template photo).ops ++ "%%EOF")

theorem intercalate4 (s a b c d : String) :
    String.intercalate s [a, b, c, d] = a ++ s ++ (b ++ s ++ (c ++ s ++ d)) := by
  show ((((((a ++ s) ++ b) ++ s) ++ c) ++ s) ++ d) = _
  simp [String.append_assoc]

theorem intercalate5 (s a b c d e : String) :
    String.intercalate s [a, b, c, d, e] =
      a ++ s ++ (b ++ s ++ (c ++ s ++ (d ++ s ++ e))) := by
  show ((((((((a ++ s) ++ b) ++ s) ++ c) ++ s) ++ d) ++ s) ++ e) = _
  simp [String.append_assoc]

/-- Flattened form of the assembled fallback text: the four mandatory
sections in order, each introduced by its upper-case label, the education
section appended exactly when the education field is non-empty. -/
theorem build_fallback_flat (d : ProfileData) :
    build_fallback_resume_text d =
      "PROFESSIONAL SUMMARY\n" ++ fallbackSummary d ++ "\n" ++ "\n" ++
      "EXPERIENCE\n" ++
      String.intercalate "\n" ((fallbackExpLines d).map (fun e => "- " ++ e)) ++ "\n" ++
      "\nSKILLS\n" ++
      String.intercalate "\n" ((fallbackSkills d).map (fun s => "- " ++ s)) ++ "\n" ++
      "\nCERTIFICATIONS\n" ++ fallbackCertsText d ++
      (if d.education ≠ "" then "\n" ++ "\nEDUCATION\n" ++ d.education else "") := by
  by_cases h : d.education ≠ ""
  · simp only [build_fallback_resume_text, if_pos h, List.cons_append, List.nil_append,
      intercalate5]
    simp only [String.append_assoc]
  · simp only [build_fallback_resume_text, if_neg h, intercalate4, String.append_empty]
    simp only [String.append_assoc]

/-- Claim C1: for every profile the fallback summary is the sentence
"Reliable {trade} with {years} years of experience in {trade_lowercased}
work. ", followed by the special notes verbatim plus a trailing space when
non-empty, followed by the fixed closing clause; the assembled text opens
with this summary under the PROFESSIONAL SUMMARY label; and on the Jane
Doe profile the summary begins "Reliable Welder with 5-10 years of
experience in welder work.". -/
theorem c1_fallback_summary :
    (∀ d : ProfileData,
      fallbackSummary d =
        "Reliable " ++ d.trade ++ " with " ++ d.years_experience ++
          " years of experience in " ++ pyLower d.trade ++ " work. " ++
          (if d.special_notes ≠ "" then d.special_notes ++ " " else "") ++
          "Known for strong work ethic, safety-first approach, and consistent on-time completion of projects.") ∧
    (∀ d : ProfileData, ∃ rest,
      build_fallback_resume_text d =
        "PROFESSIONAL SUMMARY\n" ++ fallbackSummary d ++ "\n" ++ rest) ∧
    (∃ rest, fallbackSummary janeDoe =
      "Reliable Welder with 5-10 years of experience in welder work." ++ rest) := by
  refine ⟨?_, ?_, ?_⟩
  · intro d
    by_cases h : d.special_notes ≠ ""
    · simp only [fallbackSummary, if_pos h, String.append_assoc]
    · simp only [fallbackSummary, if_neg h, String.append_empty, String.append_assoc]
  · intro d
    refine ⟨"\n" ++ ("EXPERIENCE\n" ++
      (String.intercalate "\n" ((fallbackExpLines d).map (fun e => "- " ++ e)) ++
        ("\n" ++ ("\nSKILLS\n" ++
          (String.intercalate "\n" ((fallbackSkills d).map (fun s => "- " ++ s)) ++
            ("\n" ++ ("\nCERTIFICATIONS\n" ++ (fallbackCertsText d ++
              (if d.education ≠ "" then "\n" ++ "\nEDUCATION\n" ++ d.education
               else ""))))))))), ?_⟩
    rw [build_fallback_flat d]
    simp only [String.append_assoc]
  · exact ⟨" Known for strong work ethic, safety-first approach, and consistent on-time completion of projects.", by decide⟩

/-- Claim C2: when the experience free text has no non-empty stripped line
the experience bullets are exactly the three fixed generic bullets
referencing the trade; when the resolved skills list is empty the skills
bullets are exactly the three fixed generic skill bullets; and the
experience and skills bullet lists are never empty. -/
theorem c2_generic_bullets :
    (∀ d : ProfileData, strippedLines d.experience_text = [] →
      fallbackExpLines d =
        ["Performed " ++ pyLower d.trade ++ " tasks including installation, maintenance, and repairs.",
         "Followed safety protocols and maintained jobsite cleanliness.",
         "Collaborated with teams to complete projects on schedule."]) ∧
    (∀ d : ProfileData, resolvedSkills d = [] →
      fallbackSkills d = [d.trade ++ " installation", "Equipment maintenance", "Safety compliance"]) ∧
    (∀ d : ProfileData, fallbackExpLines d ≠ [] ∧ fallbackSkills d ≠ []) := by
  refine ⟨?_, ?_, ?_⟩
  · intro d h
    simp [fallbackExpLines, h]
  · intro d h
    simp [fallbackSkills, h]
  · intro d
    constructor
    · simp only [fallbackExpLines]
      split
      · simp
      · next h => exact h
    · simp only [fallbackSkills]
      split
      · simp
      · next h => exact h

/-- Witness for C2 at the Jane Doe profile, whose experience text and
resolved skills are both empty. -/
theorem c2_generic_bullets_witness :
    fallbackExpLines janeDoe =
      ["Performed welder tasks including installation, maintenance, and repairs.",
       "Followed safety protocols and maintained jobsite cleanliness.",
       "Collaborated with teams to complete projects on schedule."] ∧
    fallbackSkills janeDoe =
      ["Welder installation", "Equipment maintenance", "Safety compliance"] :=
  ⟨(c2_generic_bullets.1 janeDoe (by decide)).trans (by decide),
   (c2_generic_bullets.2.1 janeDoe (by decide)).trans (by decide)⟩

/-- Counterexample to claim C3 as stated: on the profile whose
certifications list is the single element "N/A", the certifications line
equals "N/A" although the list is non-empty, so the line equalling "N/A"
does not imply the list is empty. -/
theorem c3_certs_counterexample :
    fallbackCertsText { janeDoe with certifications := ["N/A"] } = "N/A" ∧
    ({ janeDoe with certifications := ["N/A"] } : ProfileData).certifications ≠ [] := by
  constructor
  · decide
  · decide

/-- Claim C3 as amended: the certifications line is "N/A" when the
certifications list is empty, and otherwise is the comma-join (separator
", ") of the list elements in their original order — a join that may
itself spell "N/A". -/
theorem c3_certs_line :
    ∀ d : ProfileData,
      (d.certifications = [] → fallbackCertsText d = "N/A") ∧
      (d.certifications ≠ [] →
        fallbackCertsText d = String.intercalate ", " d.certifications) := by
  intro d
  constructor
  · intro h
    simp [fallbackCertsText, h]
  · intro h
    simp [fallbackCertsText, h]

/-- Witness for the amended C3 on an empty and on a two-element list. -/
theorem c3_certs_line_witness :
    fallbackCertsText janeDoe = "N/A" ∧
    fallbackCertsText { janeDoe with certifications := ["OSHA 10", "CDL Class A"] } =
      "OSHA 10, CDL Class A" :=
  ⟨(c3_certs_line janeDoe).1 (by decide),
   ((c3_certs_line { janeDoe with certifications := ["OSHA 10", "CDL Class A"] }).2
      (by decide)).trans (by decide)⟩

/-- Claim C4: the fallback text is the Summary, Experience, Skills and
Certifications sections in that fixed order, each under its upper-case
label with dash-prefixed bullets, followed by the Education section
exactly when the education field is non-empty; on the Jane Doe profile
with education "Trade School Diploma" the output ends with that Education
section verbatim, and without education the output is the four sections
alone. -/
theorem c4_section_order :
    (∀ d : ProfileData,
      build_fallback_resume_text d =
        "PROFESSIONAL SUMMARY\n" ++ fallbackSummary d ++ "\n" ++ "\n" ++
        "EXPERIENCE\n" ++
        String.intercalate "\n" ((fallbackExpLines d).map (fun e => "- " ++ e)) ++ "\n" ++
        "\nSKILLS\n" ++
        String.intercalate "\n" ((fallbackSkills d).map (fun s => "- " ++ s)) ++ "\n" ++
        "\nCERTIFICATIONS\n" ++ fallbackCertsText d ++
        (if d.education ≠ "" then "\n" ++ "\nEDUCATION\n" ++ d.education else "")) ∧
    (∃ before,
      build_fallback_resume_text { janeDoe with education := "Trade School Diploma" } =
        before ++ "\nEDUCATION\nTrade School Diploma") ∧
    build_fallback_resume_text janeDoe =
      "PROFESSIONAL SUMMARY\n" ++
      "Reliable Welder with 5-10 years of experience in welder work. Known for strong work ethic, safety-first approach, and consistent on-time completion of projects.\n" ++
      "\n" ++
      "EXPERIENCE\n" ++
      "- Performed welder tasks including installation, maintenance, and repairs.\n" ++
      "- Followed safety protocols and maintained jobsite cleanliness.\n" ++
      "- Collaborated with teams to complete projects on schedule.\n" ++
      "\n" ++
      "SKILLS\n" ++
      "- Welder installation\n" ++
      "- Equipment maintenance\n" ++
      "- Safety compliance\n" ++
      "\n" ++
      "CERTIFICATIONS\n" ++
      "N/A" := by
  refine ⟨build_fallback_flat, ?_, by decide⟩
  refine ⟨"PROFESSIONAL SUMMARY\nReliable Welder with 5-10 years of experience in welder work. Known for strong work ethic, safety-first approach, and consistent on-time completion of projects.\n\nEXPERIENCE\n- Performed welder tasks including installation, maintenance, and repairs.\n- Followed safety protocols and maintained jobsite cleanliness.\n- Collaborated with teams to complete projects on schedule.\n\nSKILLS\n- Welder installation\n- Equipment maintenance\n- Safety compliance\n\nCERTIFICATIONS\nN/A\n", by decide⟩

/-- Claim C10: the fallback synthesis never reads the name, city, phone or
email fields — two profiles differing only in those four fields produce
identical text, so the candidate's identity appears only in the rendered
heading, never in the synthesized body. -/
theorem c10_fallback_ignores_identity :
    ∀ (d : ProfileData) (n c p e : String),
      build_fallback_resume_text { d with name := n, city := c, phone := p, email := e } =
        build_fallback_resume_text d := by
  intro d n c p e
  rfl

theorem imgOps_filter_not_image (ph : Option PhotoStage) :
    (imgOps ph).filter (fun o => !o.isImage) = [] := by
  rcases ph with _ | stage
  · rfl
  · cases stage <;> rfl

theorem imgOps_filter_image (ph : Option PhotoStage) :
    (imgOps ph).filter (fun o => o.isImage) = imgOps ph := by
  rcases ph with _ | stage
  · rfl
  · cases stage <;> rfl

theorem imgOps_cases (ph : Option PhotoStage) :
    imgOps ph = [] ∨ imgOps ph = [PdfOp.image 15 20 35 35] := by
  rcases ph with _ | stage
  · exact Or.inl rfl
  · cases stage <;> simp [imgOps, embedPhoto]

/-- Shape of the operation list the renderer emits: the photo block ops,
the heading cell at (60, 25) with the template color and upper-cased name,
the contact cell at (60, 35) in neutral color exactly when a contact dict
was supplied, and the body block at the left margin — 10 units below the
last cell, in the neutral color only when the contact branch ran. -/
theorem create_pdf_ops_shape (rt n : String) (ci : Option ContactDict) (tpl : String)
    (ph : Option PhotoStage) :
    (create_pdf rt n ci tpl ph).ops =
      imgOps ph ++
      [PdfOp.cell 60 25 0 10 heading_font (primary_color tpl) (pyUpper n)] ++
      (match ci with
        | some c => [PdfOp.cell 60 35 0 8 body_font (0, 0, 0) (contactLine c)]
        | none => []) ++
      [PdfOp.multiCell lMargin (if ci.isSome then 53 else 45) 7 body_font
        (if ci.isSome then (0, 0, 0) else primary_color tpl) rt] := by
  rcases ph with _ | stage <;> rcases ci with _ | c <;>
    simp [create_pdf, imgOps, PdfState.init, PdfState.setXY, PdfState.setXTo, PdfState.setYTo,
      PdfState.setFontTo, PdfState.setTextColor, PdfState.cellLn, PdfState.multiCellAt,
      PdfState.imageAt, Option.map] <;>
    cases (embedPhoto stage).imagePlaced <;> simp

theorem docContent_append (a b : List PdfOp) :
    docContent (a ++ b) = docContent a ++ docContent b := by
  induction a with
  | nil => simp [docContent, String.empty_append]
  | cons x t ih => simp [docContent, ih, String.append_assoc]

theorem latin1Bytes_append (a b : String) :
    latin1Bytes (a ++ b) = latin1Bytes a ++ latin1Bytes b := by
  simp [latin1Bytes, String.data_append, List.filterMap_append]

theorem latin1Bytes_filter (s : String) :
    latin1Bytes ⟨s.data.filter (fun c => c.toNat ≤ 255)⟩ = latin1Bytes s := by
  show (s.data.filter (fun c => c.toNat ≤ 255)).filterMap _ = s.data.filterMap _
  induction s.data with
  | nil => rfl
  | cons c t ih =>
    by_cases h : c.toNat ≤ 255 <;> simp [h, ih]

theorem create_pdf_bytes_ne_nil (rt n : String) (ci : Option ContactDict) (tpl : String)
    (ph : Option PhotoStage) : create_pdf_bytes rt n ci tpl ph ≠ [] := by
  unfold create_pdf_bytes
  rw [latin1Bytes_append, latin1Bytes_append]
  rw [show latin1Bytes pdfShell = [37, 80, 68, 70, 45, 49, 46, 51, 10] from by decide]
  simp

/-- Claim C5: when the client library is unavailable or the configured
credential is absent, synthesis performs no side effect at all (no remote
call, no warning) and returns the fallback text; and whenever the remote
path fails, synthesis still returns the deterministic fallback text for
the same profile, its trace holding at most the call and one non-blocking
warning — the function is total, so no failure escapes to the caller. -/
theorem c5_remote_guard :
    (∀ (env : GenEnv) (remote : RemoteOutcome) (d : ProfileData),
      env.openai_available = false ∨ apiKeyTruthy env.api_key = false →
        (generate_resume_text env remote d).2 = [] ∧
        (generate_resume_text env remote d).1 = build_fallback_resume_text d) ∧
    (∀ (env : GenEnv) (e : String) (d : ProfileData),
      (generate_resume_text env (.failure e) d).1 = build_fallback_resume_text d ∧
      ((generate_resume_text env (.failure e) d).2 = [] ∨
        (generate_resume_text env (.failure e) d).2 =
          [.remoteCall, .warning ("OpenAI call failed: " ++ e ++ ". Using fallback template.")])) := by
  constructor
  · intro env remote d h
    have hc : (env.openai_available && apiKeyTruthy env.api_key) = false := by
      rcases h with h | h <;> simp [h]
    simp [generate_resume_text, hc]
  · intro env e d
    cases hc : env.openai_available && apiKeyTruthy env.api_key <;>
      simp [generate_resume_text, hc]

/-- Witness for C5: library unavailable, no credential. -/
theorem c5_remote_guard_witness :
    (generate_resume_text ⟨false, none⟩ (.success "remote text") janeDoe).2 = [] ∧
    (generate_resume_text ⟨false, none⟩ (.success "remote text") janeDoe).1 =
      build_fallback_resume_text janeDoe :=
  c5_remote_guard.1 ⟨false, none⟩ (.success "remote text") janeDoe (Or.inl rfl)

/-- Claim C6: whenever the supplied photo bytes fail to decode
(`Image.open`), fail to be written back as an image (`img.save`), or fail
to be placed (`pdf.image`), the error is caught: no image operation
reaches the page, the temporary file was created and is removed by the
`finally` clause, and the render still produces a non-empty byte
sequence. -/
theorem c6_photo_failure :
    ∀ (rt n : String) (ci : Option ContactDict) (tpl : String) (stage : PhotoStage),
      stage = .failDecode ∨ stage = .failSave ∨ stage = .failPlace →
        (embedPhoto stage).imagePlaced = false ∧
        (embedPhoto stage).fileCreated = true ∧
        (embedPhoto stage).fileRemoved = true ∧
        ((create_pdf rt n ci tpl (some stage)).ops.all fun o => !o.isImage) = true ∧
        create_pdf_bytes rt n ci tpl (some stage) ≠ [] := by
  intro rt n ci tpl stage h
  have himg : (embedPhoto stage).imagePlaced = false := by
    rcases h with h | h | h <;> subst h <;> rfl
  refine ⟨himg, ?_, ?_, ?_, create_pdf_bytes_ne_nil rt n ci tpl (some stage)⟩
  · rcases h with h | h | h <;> subst h <;> rfl
  · rcases h with h | h | h <;> subst h <;> rfl
  · rw [create_pdf_ops_shape]
    rcases ci with _ | c <;> simp [imgOps, himg, PdfOp.isImage]

/-- Witness for C6: undecodable photo bytes on an otherwise ordinary
render. -/
theorem c6_photo_failure_witness :
    (embedPhoto .failDecode).imagePlaced = false ∧
    (embedPhoto .failDecode).fileCreated = true ∧
    (embedPhoto .failDecode).fileRemoved = true ∧
    ((create_pdf "body" "Jane Doe" none "Modern Blue" (some .failDecode)).ops.all
        fun o => !o.isImage) = true ∧
    create_pdf_bytes "body" "Jane Doe" none "Modern Blue" (some .failDecode) ≠ [] :=
  c6_photo_failure "body" "Jane Doe" none "Modern Blue" .failDecode (Or.inl rfl)

/-- Claim C7: rendering is a total function of its inputs — for every
resume text, name, contact dict, template and photo outcome it emits the
heading cell with the upper-cased name (the empty name giving an empty
heading), any template other than the one named template gets the neutral
black color, the serialised bytes are unchanged when characters above the
single-byte range are removed from the resume text beforehand (they are
dropped, not an error), and the output bytes are never empty. -/
theorem c7_render_never_fails :
    (∀ (rt n : String) (ci : Option ContactDict) (tpl : String) (ph : Option PhotoStage),
      PdfOp.cell 60 25 0 10 heading_font (primary_color tpl) (pyUpper n) ∈
        (create_pdf rt n ci tpl ph).ops) ∧
    pyUpper "" = "" ∧
    (∀ tpl : String, tpl ≠ "Modern Blue" → primary_color tpl = (0, 0, 0)) ∧
    (∀ (rt n : String) (ci : Option ContactDict) (tpl : String) (ph : Option PhotoStage),
      create_pdf_bytes rt n ci tpl ph =
        create_pdf_bytes ⟨rt.data.filter (fun c => c.toNat ≤ 255)⟩ n ci tpl ph) ∧
    (∀ (rt n : String) (ci : Option ContactDict) (tpl : String) (ph : Option PhotoStage),
      create_pdf_bytes rt n ci tpl ph ≠ []) := by
  refine ⟨?_, rfl, ?_, ?_, fun rt n ci tpl ph => create_pdf_bytes_ne_nil rt n ci tpl ph⟩
  · intro rt n ci tpl ph
    rw [create_pdf_ops_shape]
    simp
  · intro tpl h
    simp [primary_color, h]
  · intro rt n ci tpl ph
    unfold create_pdf_bytes
    rw [create_pdf_ops_shape, create_pdf_ops_shape]
    rcases ci with _ | c <;>
      simp [docContent_append, docContent, opContent, latin1Bytes_append, latin1Bytes_filter,
        String.append_assoc]

/-- Witness for C7: empty name, all-empty contact fields, a template
outside the known set, and a resume text with characters above the
single-byte range. -/
theorem c7_render_never_fails_witness :
    (PdfOp.cell 60 25 0 10 heading_font (primary_color "No Such Template") (pyUpper "") ∈
      (create_pdf "π body ✓" "" (some ⟨"", "", ""⟩) "No Such Template" none).ops) ∧
    primary_color "No Such Template" = (0, 0, 0) ∧
    create_pdf_bytes "π body ✓" "" (some ⟨"", "", ""⟩) "No Such Template" none =
      create_pdf_bytes ⟨"π body ✓".data.filter (fun c => c.toNat ≤ 255)⟩ ""
        (some ⟨"", "", ""⟩) "No Such Template" none ∧
    create_pdf_bytes "π body ✓" "" (some ⟨"", "", ""⟩) "No Such Template" none ≠ [] :=
  ⟨c7_render_never_fails.1 "π body ✓" "" (some ⟨"", "", ""⟩) "No Such Template" none,
   c7_render_never_fails.2.2.1 "No Such Template" (by decide),
   c7_render_never_fails.2.2.2.1 "π body ✓" "" (some ⟨"", "", ""⟩) "No Such Template" none,
   c7_render_never_fails.2.2.2.2 "π body ✓" "" (some ⟨"", "", ""⟩) "No Such Template" none⟩

/-- Counterexample to claim C8 as stated: with a contact dict whose three
fields are all empty — so no contact field is present — the renderer still
emits a contact cell (with empty text) at (60, 35), and the body block
shifts from y=45 to y=53 as a result, because line 236 tests the dict's
truthiness rather than the fields. -/
theorem c8_contact_counterexample :
    ((⟨"", "", ""⟩ : ContactDict).city = "" ∧ (⟨"", "", ""⟩ : ContactDict).phone = "" ∧
      (⟨"", "", ""⟩ : ContactDict).email = "") ∧
    (create_pdf "body" "n" (some ⟨"", "", ""⟩) "Modern Blue" none).ops =
      [.cell 60 25 0 10 heading_font (0, 102, 204) "N",
       .cell 60 35 0 8 body_font (0, 0, 0) "",
       .multiCell 10 53 7 body_font (0, 0, 0) "body"] ∧
    (create_pdf "body" "n" none "Modern Blue" none).ops =
      [.cell 60 25 0 10 heading_font (0, 102, 204) "N",
       .multiCell 10 45 7 body_font (0, 102, 204) "body"] :=
  ⟨⟨rfl, rfl, rfl⟩, by decide, by decide⟩

/-- Claim C8 as amended: the contact cell is emitted iff a contact dict is
supplied (the source tests the dict's truthiness, and the app always
passes a three-key dict, even with all-empty values); when emitted its
text is the " | "-join of the non-empty fields among city, phone, email —
possibly the empty string — at the same horizontal offset (60) as the
heading, in body font and neutral color. -/
theorem c8_contact_line :
    (∀ (rt n : String) (c : ContactDict) (tpl : String) (ph : Option PhotoStage),
      (create_pdf rt n (some c) tpl ph).ops =
        imgOps ph ++
        [PdfOp.cell 60 25 0 10 heading_font (primary_color tpl) (pyUpper n),
         PdfOp.cell 60 35 0 8 body_font (0, 0, 0)
           (String.intercalate " | " (([c.city, c.phone, c.email]).filter (fun v => v ≠ ""))),
         PdfOp.multiCell lMargin 53 7 body_font (0, 0, 0) rt]) ∧
    (∀ (rt n : String) (tpl : String) (ph : Option PhotoStage),
      (create_pdf rt n none tpl ph).ops =
        imgOps ph ++
        [PdfOp.cell 60 25 0 10 heading_font (primary_color tpl) (pyUpper n),
         PdfOp.multiCell lMargin 45 7 body_font (primary_color tpl) rt]) := by
  constructor
  · intro rt n c tpl ph
    rw [create_pdf_ops_shape]
    simp [contactLine]
  · intro rt n tpl ph
    rw [create_pdf_ops_shape]
    simp

/-- Claim C9: for otherwise-identical inputs, the non-photo operations —
heading, contact line and body block, with their coordinates — are the
same whatever the photo argument, and the photo can only contribute the
single fixed-footprint image at (15, 20, 35, 35); so documents with and
without a photo differ only in the photo region. -/
theorem c9_photo_frame :
    (∀ (rt n : String) (ci : Option ContactDict) (tpl : String) (ph₁ ph₂ : Option PhotoStage),
      (create_pdf rt n ci tpl ph₁).ops.filter (fun o => !o.isImage) =
        (create_pdf rt n ci tpl ph₂).ops.filter (fun o => !o.isImage)) ∧
    (∀ (rt n : String) (ci : Option ContactDict) (tpl : String) (ph : Option PhotoStage),
      (create_pdf rt n ci tpl ph).ops.filter (fun o => o.isImage) = [] ∨
        (create_pdf rt n ci tpl ph).ops.filter (fun o => o.isImage) =
          [PdfOp.image 15 20 35 35]) := by
  constructor
  · intro rt n ci tpl ph₁ ph₂
    rw [create_pdf_ops_shape, create_pdf_ops_shape]
    simp only [List.filter_append, imgOps_filter_not_image]
  · intro rt n ci tpl ph
    rw [create_pdf_ops_shape]
    rcases imgOps_cases ph with h | h
    · left
      rcases ci with _ | c <;> simp [List.filter_append, h, PdfOp.isImage]
    · right
      rcases ci with _ | c <;> simp [List.filter_append, h, PdfOp.isImage]
